import Mathlib

/-!
Shallow embedding of src/app.py (Flask backend: OTP signup/login over a
MongoDB-style store, plus an Excel-backed TTL-cached catalog).

Modelling conventions:
- Timestamps are natural numbers (seconds of UTC time); the 5-minute OTP
  TTL is 300, the reclaimer interval is 60, the catalog cache TTL is 10.
- The two MongoDB collections (users, pending_users) are lists of records
  in insertion order; find_one returns the first match in natural order,
  delete_one removes the first match, delete_many filters, insert_one
  appends.
- JSON request fields obtained with data.get are Option String; a missing
  field is none and Python falsiness of a field is none-or-empty.
- External capabilities are parameters: the bcrypt hash value, the random
  OTP string, the outcome of the SMTP send (a Bool), and the MongoDB
  generated _id of an inserted user.
- A Python exception escaping a handler (KeyError on a missing record
  field, AttributeError from calling .get on None) is a distinguished
  crash outcome, with the store state as it was at the raise point.
-/

namespace Coinsora

/-- Default profile picture URL from app.py. -/
def DEFAULT_PROFILE_PIC : String := "https://i.pravatar.cc/150?img=12"

/-- A document of the users collection, as inserted by verify_otp. -/
structure UserRecord where
  name : String
  contact : String
  method : String
  password : String
  verified : Bool
  image : String
  created_at : Nat
  id : String
deriving DecidableEq, Repr

/-- A document of the pending_users collection. Signup challenges carry
name, method and password; login challenges omit them (modelled none). -/
structure PendingChallenge where
  name : Option String
  contact : String
  method : Option String
  password : Option String
  otp : String
  otp_expiry : Nat
  login_otp : Bool
deriving DecidableEq, Repr

/-- The two persistent collections. -/
structure AppState where
  users : List UserRecord
  pending_users : List PendingChallenge
deriving DecidableEq, Repr

/-- Python falsiness of a JSON string field: missing or empty. -/
def blank : Option String → Bool
  | none => true
  | some s => s.isEmpty

/-- MongoDB query {contact: q} against a document whose contact field is a
string: matches exactly when q is that string (a none query matches only
null or missing contact fields, which no document of this app has). -/
def contactMatches (q : Option String) (c : String) : Bool :=
  some c == q

/-- users.find_one on contact q: first user whose contact matches. -/
def findUser (q : Option String) (l : List UserRecord) : Option UserRecord :=
  l.find? (fun u => contactMatches q u.contact)

/-- pending_users.find_one on contact q and login_otp b. -/
def findChallenge (q : Option String) (b : Bool) (l : List PendingChallenge) :
    Option PendingChallenge :=
  l.find? (fun c => contactMatches q c.contact && c.login_otp == b)

/-- pending_users.delete_one on contact q: remove the first match. -/
def deleteOnePending (q : Option String) : List PendingChallenge → List PendingChallenge
  | [] => []
  | c :: rest =>
    if contactMatches q c.contact then rest else c :: deleteOnePending q rest

/-- pending_users.delete_many on contact q: remove every match. -/
def deleteManyPending (q : Option String) (l : List PendingChallenge) :
    List PendingChallenge :=
  l.filter (fun c => !contactMatches q c.contact)

/-- Observable side effects of the two OTP-sending endpoints, in order. -/
inductive SendEvent where
  | persistedChallenge (c : PendingChallenge)
  | sendAttempted (recipient otp : String)
  | rolledBack (contact : String)
deriving DecidableEq, Repr

inductive SignupResult where
  | validationError
  | duplicateUser
  | otpSent
  | notificationError
deriving DecidableEq, Repr

structure SignupOut where
  result : SignupResult
  state : AppState
  events : List SendEvent
deriving DecidableEq, Repr

/-- POST /signup. Parameters hashed (the bcrypt hash of password), otp
(the random 6-digit string) and sendOk (whether send_email_otp succeeds)
stand for the external capabilities. -/
def signup (name contact password : Option String) (hashed otp : String)
    (now : Nat) (sendOk : Bool) (s : AppState) : SignupOut :=
  if blank name || blank contact || blank password then
    ⟨.validationError, s, []⟩
  else if (findUser contact s.users).isSome then
    ⟨.duplicateUser, s, []⟩
  else
    let ct := contact.getD ""
    let ch : PendingChallenge :=
      { name := name, contact := ct, method := some "email",
        password := some hashed, otp := otp, otp_expiry := now + 300,
        login_otp := false }
    let s1 : AppState :=
      { s with pending_users := deleteManyPending contact s.pending_users ++ [ch] }
    if sendOk then
      ⟨.otpSent, s1, [.persistedChallenge ch, .sendAttempted ct otp]⟩
    else
      ⟨.notificationError,
        { s1 with pending_users := deleteOnePending contact s1.pending_users },
        [.persistedChallenge ch, .sendAttempted ct otp, .rolledBack ct]⟩

inductive VerifyOtpResult where
  | notFound
  | expired
  | invalidOtp
  | verified
  | crash
deriving DecidableEq, Repr

/-- POST /verify-otp. newId stands for the MongoDB generated _id of the
inserted user. The crash outcome models a KeyError raised while building
the insert document from a challenge lacking name or password (the state
is unchanged there: the raise happens before insert_one runs). -/
def verify_otp (contact reqOtp : Option String) (now : Nat) (newId : String)
    (s : AppState) : VerifyOtpResult × AppState :=
  match findChallenge contact false s.pending_users with
  | none => (.notFound, s)
  | some record =>
    if record.otp_expiry < now then
      (.expired, { s with pending_users := deleteOnePending contact s.pending_users })
    else if !(some record.otp == reqOtp) then
      (.invalidOtp, s)
    else
      match record.name, record.password with
      | some n, some p =>
        let u : UserRecord :=
          { name := n, contact := record.contact, method := "email",
            password := p, verified := true, image := DEFAULT_PROFILE_PIC,
            created_at := now, id := newId }
        (.verified,
          { users := s.users ++ [u],
            pending_users := deleteOnePending contact s.pending_users })
      | _, _ => (.crash, s)

/-- Public profile returned by the two login endpoints. -/
structure Profile where
  name : String
  contact : String
  userId : String
  image : String
deriving DecidableEq, Repr

def profileOf (u : UserRecord) : Profile :=
  { name := u.name, contact := u.contact, userId := u.id, image := u.image }

inductive LoginResult where
  | notFound
  | invalidPassword
  | success (p : Profile)
deriving DecidableEq, Repr

/-- POST /login. check stands for bcrypt.check_password_hash, applied to
the stored hash and the submitted password field. -/
def login (check : String → Option String → Bool)
    (contact password : Option String) (s : AppState) : LoginResult × AppState :=
  match findUser contact s.users with
  | none => (.notFound, s)
  | some u =>
    if check u.password password then (.success (profileOf u), s)
    else (.invalidPassword, s)

inductive SendLoginResult where
  | notFound
  | otpSent
  | notificationError
deriving DecidableEq, Repr

structure SendLoginOut where
  result : SendLoginResult
  state : AppState
  events : List SendEvent
deriving DecidableEq, Repr

/-- POST /send-login-otp. Note: unlike signup, the except branch does not
delete the just-inserted challenge. -/
def send_login_otp (contact : Option String) (otp : String) (now : Nat)
    (sendOk : Bool) (s : AppState) : SendLoginOut :=
  match findUser contact s.users with
  | none => ⟨.notFound, s, []⟩
  | some _ =>
    let ct := contact.getD ""
    let ch : PendingChallenge :=
      { name := none, contact := ct, method := none, password := none,
        otp := otp, otp_expiry := now + 300, login_otp := true }
    let s1 : AppState :=
      { s with pending_users := deleteManyPending contact s.pending_users ++ [ch] }
    if sendOk then
      ⟨.otpSent, s1, [.persistedChallenge ch, .sendAttempted ct otp]⟩
    else
      ⟨.notificationError, s1, [.persistedChallenge ch, .sendAttempted ct otp]⟩

inductive VerifyLoginResult where
  | notFound
  | expired
  | invalidOtp
  | crash
  | success (p : Profile)
deriving DecidableEq, Repr

/-- POST /verify-login-otp. The crash outcome models the AttributeError
from user.get when users.find_one returned None; the delete_one of the
challenge has already run at that point, so the state carries it. -/
def verify_login_otp (contact reqOtp : Option String) (now : Nat)
    (s : AppState) : VerifyLoginResult × AppState :=
  match findChallenge contact true s.pending_users with
  | none => (.notFound, s)
  | some record =>
    if record.otp_expiry < now then
      (.expired, { s with pending_users := deleteOnePending contact s.pending_users })
    else if !(some record.otp == reqOtp) then
      (.invalidOtp, s)
    else
      let user := findUser contact s.users
      let s1 : AppState :=
        { s with pending_users := deleteOnePending contact s.pending_users }
      match user with
      | none => (.crash, s1)
      | some u => (.success (profileOf u), s1)

/-- One successful pending_users.delete_many of every challenge whose
otp_expiry is strictly below now, as in the reclaimer body. -/
def deleteManyExpired (now : Nat) (s : AppState) : AppState :=
  { s with pending_users := s.pending_users.filter (fun c => !(c.otp_expiry < now)) }

/-- One reclaimer tick whose underlying store delete may fail (the Bool
says whether delete_many raises). -/
def cleanTick (storeFails : Bool) (now : Nat) (s : AppState) :
    Except Unit AppState :=
  if storeFails then .error () else .ok (deleteManyExpired now s)

/-- The clean_expired_otps loop over a finite schedule of ticks, each a
pair (storeFails, now). The loop body of app.py has no exception handler,
so an error from delete_many propagates and ends the loop. -/
def clean_expired_otps : List (Bool × Nat) → AppState → Except Unit AppState
  | [], s => .ok s
  | (f, now) :: ticks, s =>
    match cleanTick f now s with
    | .error e => .error e
    | .ok s1 => clean_expired_otps ticks s1

/-- A spreadsheet cell as seen through iter_rows values_only: none is an
empty cell (Python None); cell scalars are modelled as strings, with
Python string falsiness (empty string is falsy). -/
abbrev Cell := Option String

/-- Python truthiness of a cell value. -/
def truthy : Cell → Bool
  | none => false
  | some s => !s.isEmpty

/-- Python str interpolation of a cell known to be truthy. -/
def cellStr : Cell → String
  | none => ""
  | some s => s

/-- A worksheet: its name and all its rows, header row included. -/
structure Sheet where
  name : String
  rows : List (List Cell)
deriving DecidableEq, Repr

/-- A catalog entry built from one valid data row. -/
structure Item where
  id : String
  title : Cell
  author : Cell
  price : Cell
  image : String
  category : String
  image2 : String
  image3 : String
  description : String
  image4 : String
  image5 : String
deriving DecidableEq, Repr

/-- The row survives both continue guards: some cell truthy, at least two
columns, and the first two cells truthy. -/
def rowValid (row : List Cell) : Bool :=
  row.any truthy && decide (2 ≤ row.length)
    && truthy (row.getD 0 none) && truthy (row.getD 1 none)

/-- Python row at index i when the row is long enough, else the empty
string: the pattern for the author and price fields. -/
def cellOr (row : List Cell) (i : Nat) : Cell :=
  if i < row.length then row.getD i none else some ""

/-- Python row at index i when present and truthy, else the empty string:
the pattern for the image and description fields. -/
def imgField (row : List Cell) (i : Nat) : String :=
  if truthy (cellOr row i) then cellStr (cellOr row i) else ""

/-- The item dict built from one valid data row of a sheet. -/
def mkItem (sheetName : String) (row : List Cell) : Item :=
  { id := sheetName ++ "_" ++ cellStr (row.getD 0 none),
    title := row.getD 1 none,
    author := cellOr row 2,
    price := cellOr row 3,
    image := imgField row 4,
    category := sheetName,
    image2 := imgField row 6,
    image3 := imgField row 7,
    description := imgField row 8,
    image4 := imgField row 9,
    image5 := imgField row 10 }

/-- The items of one sheet: data rows (header dropped), invalid rows
skipped, one item per surviving row. -/
def sheetItems (sh : Sheet) : List Item :=
  ((sh.rows.drop 1).filter rowValid).map (mkItem sh.name)

/-- The categories mapping in sheet order. -/
def buildCategories (sheets : List Sheet) : List (String × List Item) :=
  sheets.map (fun sh => (sh.name, sheetItems sh))

/-- The module-level _cache dict. -/
structure CacheState where
  data : Option (List (String × List Item))
  timestamp : Nat
deriving DecidableEq, Repr

def CACHE_TTL : Nat := 10

/-- Python truthiness of _cache data: not None and not the empty dict. -/
def cacheTruthy (c : CacheState) : Bool :=
  match c.data with
  | none => false
  | some d => !d.isEmpty

/-- Outcome of one call to load_items_by_category: the returned mapping,
the cache afterwards, and whether the workbook was read. -/
structure LoadResult where
  result : List (String × List Item)
  cache : CacheState
  didRead : Bool
deriving DecidableEq, Repr

/-- load_items_by_category. The dataset parameter is the workbook on
disk: none models a missing file (returns empty, leaves the cache). -/
def load_items_by_category (dataset : Option (List Sheet)) (now : Nat)
    (c : CacheState) : LoadResult :=
  if cacheTruthy c && decide (now - c.timestamp < CACHE_TTL) then
    { result := c.data.getD [], cache := c, didRead := false }
  else
    match dataset with
    | none => { result := [], cache := c, didRead := false }
    | some sheets =>
      let categories := buildCategories sheets
      { result := categories,
        cache := { data := some categories, timestamp := now },
        didRead := true }

/-- Placeholder thumbnail from get_category_list. -/
def PLACEHOLDER : String := "https://via.placeholder.com/150"

/-- The for loop of get_category_list that scans items for the first
truthy image. -/
def firstImage : List Item → String
  | [] => ""
  | it :: rest => if !it.image.isEmpty then it.image else firstImage rest

/-- One element of the category-list response. -/
structure CategoryInfo where
  name : String
  count : Nat
  thumbnail : String
deriving DecidableEq, Repr

/-- GET /api/category-list, applied to an already loaded mapping. -/
def get_category_list (data : List (String × List Item)) : List CategoryInfo :=
  data.map (fun ni =>
    let thumbnail := firstImage ni.2
    { name := ni.1, count := ni.2.length,
      thumbnail := if thumbnail.isEmpty then PLACEHOLDER else thumbnail })

/-- All challenges a query contact matches, in store order. -/
def pendingFor (q : Option String) (l : List PendingChallenge) :
    List PendingChallenge :=
  l.filter (fun c => contactMatches q c.contact)

/-- All challenges stored for a concrete contact string. -/
def challengesFor (w : String) (l : List PendingChallenge) :
    List PendingChallenge :=
  pendingFor (some w) l

/-- The per-contact uniqueness invariant of the pending store. -/
def atMostOnePerContact (l : List PendingChallenge) : Prop :=
  ∀ w : String, (challengesFor w l).length ≤ 1

/-- One request-handling or reclaimer step of the system, with arbitrary
inputs and arbitrary external outcomes. -/
inductive Step : AppState → AppState → Prop where
  | signup (name contact password : Option String) (hashed otp : String)
      (now : Nat) (sendOk : Bool) (s : AppState) :
      Step s (signup name contact password hashed otp now sendOk s).state
  | verifyOtp (contact reqOtp : Option String) (now : Nat) (newId : String)
      (s : AppState) :
      Step s (verify_otp contact reqOtp now newId s).2
  | login (check : String → Option String → Bool)
      (contact password : Option String) (s : AppState) :
      Step s (Coinsora.login check contact password s).2
  | sendLoginOtp (contact : Option String) (otp : String) (now : Nat)
      (sendOk : Bool) (s : AppState) :
      Step s (send_login_otp contact otp now sendOk s).state
  | verifyLoginOtp (contact reqOtp : Option String) (now : Nat) (s : AppState) :
      Step s (verify_login_otp contact reqOtp now s).2
  | reclaim (now : Nat) (s : AppState) :
      Step s (deleteManyExpired now s)

/-- States reachable from the empty stores by system steps. -/
inductive Reachable : AppState → Prop where
  | init : Reachable { users := [], pending_users := [] }
  | step {s s1 : AppState} : Reachable s → Step s s1 → Reachable s1

lemma deleteOnePending_sublist (q : Option String) (l : List PendingChallenge) :
    List.Sublist (deleteOnePending q l) l := by
  induction l with
  | nil => simp [deleteOnePending]
  | cons c rest ih =>
    rw [deleteOnePending]
    split
    · exact List.sublist_cons_self c rest
    · exact ih.cons₂ c

lemma deleteManyPending_sublist (q : Option String) (l : List PendingChallenge) :
    List.Sublist (deleteManyPending q l) l :=
  List.filter_sublist l

lemma atMostOnePerContact_of_sublist {l1 l2 : List PendingChallenge}
    (h : List.Sublist l1 l2) (h2 : atMostOnePerContact l2) :
    atMostOnePerContact l1 :=
  fun w => le_trans (List.Sublist.length_le (h.filter _)) (h2 w)

lemma challengesFor_deleteMany_self (v : String) (l : List PendingChallenge) :
    challengesFor v (deleteManyPending (some v) l) = [] := by
  apply List.filter_eq_nil_iff.mpr
  intro a ha
  rcases List.mem_filter.mp ha with ⟨-, h⟩
  simp only [Bool.not_eq_true'] at h
  simp [h]

lemma atMostOnePerContact_replace (v : String) (ch : PendingChallenge)
    (hch : ch.contact = v) (l : List PendingChallenge)
    (hl : atMostOnePerContact l) :
    atMostOnePerContact (deleteManyPending (some v) l ++ [ch]) := by
  intro w
  rw [challengesFor, pendingFor, List.filter_append]
  by_cases hwv : w = v
  · subst hwv
    have h1 := challengesFor_deleteMany_self w l
    rw [challengesFor, pendingFor] at h1
    rw [h1]
    simp [contactMatches, hch]
  · have h2 : List.filter (fun c => contactMatches (some w) c.contact) [ch] = [] := by
      simp only [List.filter, contactMatches, hch]
      have : (some v == some w) = false := by
        simp [beq_eq_false_iff_ne, Ne, Option.some.injEq]
        exact fun h => hwv h.symm
      simp [this]
    rw [h2, List.append_nil]
    exact le_trans
      (List.Sublist.length_le ((deleteManyPending_sublist (some v) l).filter _))
      (hl w)

lemma pendingFor_deleteOne (q : Option String) (l : List PendingChallenge) :
    pendingFor q (deleteOnePending q l) = (pendingFor q l).drop 1 := by
  induction l with
  | nil => rfl
  | cons c rest ih =>
    by_cases h : contactMatches q c.contact
    · simp [deleteOnePending, pendingFor, h, List.filter_cons]
    · simp only [deleteOnePending, if_neg h]
      rw [pendingFor, List.filter_cons, if_neg (by simp [h]),
        pendingFor, List.filter_cons, if_neg (by simp [h])]
      exact ih

lemma verify_otp_match (contact : Option String) (now : Nat) (newId : String)
    (s : AppState) (c : PendingChallenge) (n p : String)
    (hfind : findChallenge contact false s.pending_users = some c)
    (hnow : ¬ c.otp_expiry < now)
    (hn : c.name = some n) (hp : c.password = some p) :
    verify_otp contact (some c.otp) now newId s =
      (.verified,
       { users := s.users ++
           [{ name := n, contact := c.contact, method := "email",
              password := p, verified := true, image := DEFAULT_PROFILE_PIC,
              created_at := now, id := newId }],
         pending_users := deleteOnePending contact s.pending_users }) := by
  simp only [verify_otp, hfind]
  rw [if_neg hnow]
  simp [hn, hp]

lemma verify_login_otp_match_user (contact : Option String) (now : Nat)
    (s : AppState) (c : PendingChallenge) (u : UserRecord)
    (hfind : findChallenge contact true s.pending_users = some c)
    (hnow : ¬ c.otp_expiry < now)
    (hu : findUser contact s.users = some u) :
    verify_login_otp contact (some c.otp) now s =
      (.success (profileOf u),
       { s with pending_users := deleteOnePending contact s.pending_users }) := by
  simp only [verify_login_otp, hfind]
  rw [if_neg hnow]
  simp [hu]

/-- C1: on a pending unexpired signup challenge, a matching OTP creates
exactly the UserRecord built from the challenge fields with verified true,
the default image and the current timestamp, and deletes the challenge;
and no other operation (signup, login, send-login-otp, verify-login-otp,
reclaimer) changes the users collection. -/
theorem otp_verification_creates_user :
    (∀ (contact reqOtp : Option String) (now : Nat) (newId : String)
       (s : AppState) (c : PendingChallenge) (n p : String),
       findChallenge contact false s.pending_users = some c →
       now ≤ c.otp_expiry →
       reqOtp = some c.otp →
       c.name = some n →
       c.password = some p →
       verify_otp contact reqOtp now newId s =
         (.verified,
          { users := s.users ++
              [{ name := n, contact := c.contact, method := "email",
                 password := p, verified := true,
                 image := DEFAULT_PROFILE_PIC, created_at := now,
                 id := newId }],
            pending_users := deleteOnePending contact s.pending_users }))
    ∧ (∀ name contact password hashed otp now sendOk s,
        (signup name contact password hashed otp now sendOk s).state.users
          = s.users)
    ∧ (∀ check contact password s,
        (login check contact password s).2.users = s.users)
    ∧ (∀ contact otp now sendOk s,
        (send_login_otp contact otp now sendOk s).state.users = s.users)
    ∧ (∀ contact reqOtp now s,
        (verify_login_otp contact reqOtp now s).2.users = s.users)
    ∧ (∀ now s, (deleteManyExpired now s).users = s.users) := by
  refine ⟨?_, ?_, ?_, ?_, ?_, ?_⟩
  · intro contact reqOtp now newId s c n p hfind hnow hotp hn hp
    subst hotp
    exact verify_otp_match contact now newId s c n p hfind (by omega) hn hp
  · intro name contact password hashed otp now sendOk s
    rw [signup]
    split
    · rfl
    split
    · rfl
    split <;> rfl
  · intro check contact password s
    rw [login]
    rcases findUser contact s.users with - | u
    · rfl
    · dsimp only
      split <;> rfl
  · intro contact otp now sendOk s
    rw [send_login_otp]
    rcases findUser contact s.users with - | u
    · rfl
    · dsimp only
      split <;> rfl
  · intro contact reqOtp now s
    rw [verify_login_otp]
    rcases findChallenge contact true s.pending_users with - | record
    · rfl
    · dsimp only
      split
      · rfl
      split
      · rfl
      rcases findUser contact s.users with - | u <;> rfl
  · intro now s
    rfl

/-- Sample signup challenge for the witnesses. -/
def annChallenge : PendingChallenge :=
  { name := some "Ann", contact := "ann@x.com", method := some "email",
    password := some "HASH", otp := "123456", otp_expiry := 1300,
    login_otp := false }

/-- A store holding exactly the sample signup challenge. -/
def st1 : AppState := { users := [], pending_users := [annChallenge] }

theorem otp_verification_creates_user_witness :
    verify_otp (some "ann@x.com") (some "123456") 1200 "id1" st1 =
      (.verified,
       { users := [{ name := "Ann", contact := "ann@x.com", method := "email",
                     password := "HASH", verified := true,
                     image := DEFAULT_PROFILE_PIC, created_at := 1200,
                     id := "id1" }],
         pending_users := [] }) := by
  have h := otp_verification_creates_user.1 (some "ann@x.com") (some "123456")
    1200 "id1" st1 annChallenge "Ann" "HASH" (by decide) (by decide) rfl rfl rfl
  rw [h]
  decide

lemma pendingFor_deleteOne_eq_nil {q : Option String} {l : List PendingChallenge}
    (h : (pendingFor q l).length ≤ 1) :
    pendingFor q (deleteOnePending q l) = [] := by
  rw [pendingFor_deleteOne]
  exact List.drop_eq_nil_of_le h

lemma some_getD_of_not_blank {o : Option String} (h : blank o = false) :
    some (o.getD "") = o := by
  cases o with
  | none => simp [blank] at h
  | some s => rfl

lemma findUser_some_getD {q : Option String} {l : List UserRecord}
    {u : UserRecord} (h : findUser q l = some u) : some (q.getD "") = q := by
  cases q with
  | none =>
    exfalso
    rw [findUser] at h
    have := List.find?_some h
    simp [contactMatches] at this
  | some v => rfl

lemma login_state_eq (check : String → Option String → Bool)
    (contact password : Option String) (s : AppState) :
    (login check contact password s).2 = s := by
  rw [login]
  rcases findUser contact s.users with - | u
  · rfl
  · dsimp only
    split <;> rfl

lemma verify_otp_pending_sublist (contact reqOtp : Option String) (now : Nat)
    (newId : String) (s : AppState) :
    List.Sublist (verify_otp contact reqOtp now newId s).2.pending_users
      s.pending_users := by
  rw [verify_otp]
  rcases findChallenge contact false s.pending_users with - | record
  · exact List.Sublist.refl _
  · dsimp only
    split
    · exact deleteOnePending_sublist _ _
    split
    · exact List.Sublist.refl _
    split
    · exact deleteOnePending_sublist _ _
    · exact List.Sublist.refl _

lemma verify_login_otp_pending_sublist (contact reqOtp : Option String)
    (now : Nat) (s : AppState) :
    List.Sublist (verify_login_otp contact reqOtp now s).2.pending_users
      s.pending_users := by
  rw [verify_login_otp]
  rcases findChallenge contact true s.pending_users with - | record
  · exact List.Sublist.refl _
  · dsimp only
    split
    · exact deleteOnePending_sublist _ _
    split
    · exact List.Sublist.refl _
    rcases findUser contact s.users with - | u
    · exact deleteOnePending_sublist _ _
    · exact deleteOnePending_sublist _ _

lemma signup_preserves_atMostOne (name contact password : Option String)
    (hashed otp : String) (now : Nat) (sendOk : Bool) (s : AppState)
    (h : atMostOnePerContact s.pending_users) :
    atMostOnePerContact
      (signup name contact password hashed otp now sendOk s).state.pending_users := by
  rw [signup]
  split
  · exact h
  next hval =>
  split
  · exact h
  have hct : blank contact = false := by
    simp only [Bool.or_eq_true, not_or, Bool.not_eq_true] at hval
    exact hval.1.2
  have hq : some (contact.getD "") = contact := some_getD_of_not_blank hct
  have hrep := atMostOnePerContact_replace (contact.getD "")
      { name := name, contact := contact.getD "", method := some "email",
        password := some hashed, otp := otp, otp_expiry := now + 300,
        login_otp := false } rfl s.pending_users h
  rw [hq] at hrep
  split
  · exact hrep
  · exact atMostOnePerContact_of_sublist (deleteOnePending_sublist contact _) hrep

lemma send_login_otp_preserves_atMostOne (contact : Option String)
    (otp : String) (now : Nat) (sendOk : Bool) (s : AppState)
    (h : atMostOnePerContact s.pending_users) :
    atMostOnePerContact
      (send_login_otp contact otp now sendOk s).state.pending_users := by
  rw [send_login_otp]
  rcases hu : findUser contact s.users with - | u
  · exact h
  · have hq : some (contact.getD "") = contact := findUser_some_getD hu
    dsimp only
    have hrep := atMostOnePerContact_replace (contact.getD "")
        { name := none, contact := contact.getD "", method := none,
          password := none, otp := otp, otp_expiry := now + 300,
          login_otp := true } rfl s.pending_users h
    rw [hq] at hrep
    split
    · exact hrep
    · exact hrep

lemma step_preserves_atMostOne {s s1 : AppState} (hstep : Step s s1)
    (h : atMostOnePerContact s.pending_users) :
    atMostOnePerContact s1.pending_users := by
  cases hstep with
  | signup name contact password hashed otp now sendOk =>
    exact signup_preserves_atMostOne name contact password hashed otp now
      sendOk s h
  | verifyOtp contact reqOtp now newId =>
    exact atMostOnePerContact_of_sublist
      (verify_otp_pending_sublist contact reqOtp now newId s) h
  | login check contact password =>
    rw [login_state_eq]
    exact h
  | sendLoginOtp contact otp now sendOk =>
    exact send_login_otp_preserves_atMostOne contact otp now sendOk s h
  | verifyLoginOtp contact reqOtp now =>
    exact atMostOnePerContact_of_sublist
      (verify_login_otp_pending_sublist contact reqOtp now s) h
  | reclaim now =>
    exact atMostOnePerContact_of_sublist (List.filter_sublist _) h

/-- C3: in every state reachable from empty stores by any sequence of
signup, verify-otp, login, send-login-otp, verify-login-otp and reclaimer
steps, at most one pending challenge exists per contact. -/
theorem at_most_one_challenge_per_contact (s : AppState) (h : Reachable s) :
    atMostOnePerContact s.pending_users := by
  induction h with
  | init =>
    intro w
    simp [challengesFor, pendingFor]
  | step hr hstep ih =>
    exact step_preserves_atMostOne hstep ih

theorem at_most_one_challenge_per_contact_witness :
    atMostOnePerContact
      ({ users := [], pending_users := [] } : AppState).pending_users :=
  at_most_one_challenge_per_contact _ Reachable.init

/-- C2: for a stored challenge created at time T (expiry T + 300), a
verification attempt at time now passes the expiry gate iff now is at most
T + 300; strictly later the operation returns ExpiredError after deleting
the challenge, leaving no challenge for that contact. Both the signup and
the login verification endpoints are covered. -/
theorem expiry_gate_iff (contact reqOtp : Option String) (now T : Nat)
    (newId : String) (s : AppState) (c : PendingChallenge)
    (hexp : c.otp_expiry = T + 300)
    (huniq : (pendingFor contact s.pending_users).length ≤ 1) :
    (findChallenge contact false s.pending_users = some c →
      ((verify_otp contact reqOtp now newId s).1 ≠ .expired ↔ now ≤ T + 300)
      ∧ (T + 300 < now →
          verify_otp contact reqOtp now newId s =
            (.expired,
             { s with pending_users := deleteOnePending contact s.pending_users })
          ∧ pendingFor contact
              (verify_otp contact reqOtp now newId s).2.pending_users = []))
    ∧ (findChallenge contact true s.pending_users = some c →
      ((verify_login_otp contact reqOtp now s).1 ≠ .expired ↔ now ≤ T + 300)
      ∧ (T + 300 < now →
          verify_login_otp contact reqOtp now s =
            (.expired,
             { s with pending_users := deleteOnePending contact s.pending_users })
          ∧ pendingFor contact
              (verify_login_otp contact reqOtp now s).2.pending_users = [])) := by
  constructor
  · intro hfind
    by_cases hlt : c.otp_expiry < now
    · have heq : verify_otp contact reqOtp now newId s =
          (.expired,
           { s with pending_users := deleteOnePending contact s.pending_users }) := by
        simp only [verify_otp, hfind]
        rw [if_pos hlt]
      have h1 : (verify_otp contact reqOtp now newId s).1 = .expired := by
        rw [heq]
      refine ⟨⟨fun hne => absurd h1 hne, fun hle => absurd hle (by omega)⟩, ?_⟩
      intro _
      refine ⟨heq, ?_⟩
      rw [heq]
      exact pendingFor_deleteOne_eq_nil huniq
    · refine ⟨⟨fun _ => by omega, fun _ => ?_⟩, fun hgt => absurd hgt (by omega)⟩
      simp only [verify_otp, hfind]
      rw [if_neg hlt]
      split
      · simp
      split
      · simp
      · simp
  · intro hfind
    by_cases hlt : c.otp_expiry < now
    · have heq : verify_login_otp contact reqOtp now s =
          (.expired,
           { s with pending_users := deleteOnePending contact s.pending_users }) := by
        simp only [verify_login_otp, hfind]
        rw [if_pos hlt]
      have h1 : (verify_login_otp contact reqOtp now s).1 = .expired := by
        rw [heq]
      refine ⟨⟨fun hne => absurd h1 hne, fun hle => absurd hle (by omega)⟩, ?_⟩
      intro _
      refine ⟨heq, ?_⟩
      rw [heq]
      exact pendingFor_deleteOne_eq_nil huniq
    · refine ⟨⟨fun _ => by omega, fun _ => ?_⟩, fun hgt => absurd hgt (by omega)⟩
      simp only [verify_login_otp, hfind]
      rw [if_neg hlt]
      split
      · simp
      rcases findUser contact s.users with - | u
      · simp
      · simp

theorem expiry_gate_iff_witness :
    verify_otp (some "ann@x.com") (some "123456") 1400 "idX" st1 =
      (.expired, { users := [], pending_users := [] }) := by
  have h := (expiry_gate_iff (some "ann@x.com") (some "123456") 1400 1000
    "idX" st1 annChallenge rfl (by decide)).1 (by decide)
  have h2 := (h.2 (by decide)).1
  rw [h2]
  decide

/-- C5: on a pending unexpired challenge (signup or login type), a
non-matching submitted OTP yields InvalidOtpError with both stores exactly
unchanged, and a subsequent attempt with the stored OTP before expiry
still succeeds. -/
theorem invalid_otp_preserves_state (contact reqOtp : Option String)
    (now now2 : Nat) (newId newId2 : String) (s : AppState)
    (c : PendingChallenge) :
    (findChallenge contact false s.pending_users = some c →
      now ≤ c.otp_expiry →
      some c.otp ≠ reqOtp →
      verify_otp contact reqOtp now newId s = (.invalidOtp, s)
      ∧ (∀ n p, c.name = some n → c.password = some p →
          now2 ≤ c.otp_expiry →
          (verify_otp contact (some c.otp) now2 newId2 s).1 = .verified))
    ∧ (findChallenge contact true s.pending_users = some c →
      now ≤ c.otp_expiry →
      some c.otp ≠ reqOtp →
      verify_login_otp contact reqOtp now s = (.invalidOtp, s)
      ∧ (∀ u, findUser contact s.users = some u →
          now2 ≤ c.otp_expiry →
          (verify_login_otp contact (some c.otp) now2 s).1
            = .success (profileOf u))) := by
  constructor
  · intro hfind hnow hneq
    have hb : (some c.otp == reqOtp) = false := beq_eq_false_iff_ne.mpr hneq
    constructor
    · simp only [verify_otp, hfind]
      rw [if_neg (by omega : ¬ c.otp_expiry < now), hb]
      simp
    · intro n p hn hp hnow2
      rw [verify_otp_match contact now2 newId2 s c n p hfind (by omega) hn hp]
  · intro hfind hnow hneq
    have hb : (some c.otp == reqOtp) = false := beq_eq_false_iff_ne.mpr hneq
    constructor
    · simp only [verify_login_otp, hfind]
      rw [if_neg (by omega : ¬ c.otp_expiry < now), hb]
      simp
    · intro u hu hnow2
      rw [verify_login_otp_match_user contact now2 s c u hfind (by omega) hu]

theorem invalid_otp_preserves_state_witness :
    verify_otp (some "ann@x.com") (some "999999") 1200 "idA" st1
      = (.invalidOtp, st1)
    ∧ (verify_otp (some "ann@x.com") (some "123456") 1250 "idB" st1).1
      = .verified := by
  have h := (invalid_otp_preserves_state (some "ann@x.com") (some "999999")
    1200 1250 "idA" "idB" st1 annChallenge).1 (by decide) (by decide) (by decide)
  exact ⟨h.1, h.2 "Ann" "HASH" rfl rfl (by decide)⟩

/-- C9: on a matching unexpired login challenge whose contact has no
UserRecord, verify-login-otp does not answer NotFoundError: the user
lookup yields none and the profile construction crashes (undefined), with
the challenge already deleted. -/
theorem verify_login_missing_user_crash (contact reqOtp : Option String)
    (now : Nat) (s : AppState) (c : PendingChallenge)
    (hfind : findChallenge contact true s.pending_users = some c)
    (hnow : now ≤ c.otp_expiry)
    (hotp : reqOtp = some c.otp)
    (huser : findUser contact s.users = none) :
    verify_login_otp contact reqOtp now s =
      (.crash,
       { s with pending_users := deleteOnePending contact s.pending_users }) := by
  subst hotp
  simp only [verify_login_otp, hfind]
  rw [if_neg (by omega : ¬ c.otp_expiry < now)]
  simp [huser]

/-- Sample login challenge for the witnesses. -/
def annLoginChallenge : PendingChallenge :=
  { name := none, contact := "ann@x.com", method := none, password := none,
    otp := "654321", otp_expiry := 1300, login_otp := true }

/-- A store holding the sample login challenge and no users. -/
def st2 : AppState := { users := [], pending_users := [annLoginChallenge] }

theorem verify_login_missing_user_crash_witness :
    verify_login_otp (some "ann@x.com") (some "654321") 1200 st2 =
      (.crash, { users := [], pending_users := [] }) := by
  have h := verify_login_missing_user_crash (some "ann@x.com") (some "654321")
    1200 st2 annLoginChallenge (by decide) (by decide) rfl rfl
  rw [h]
  decide

lemma challengesFor_replace (v : String) (ch : PendingChallenge)
    (hch : ch.contact = v) (l : List PendingChallenge) :
    challengesFor v (deleteManyPending (some v) l ++ [ch]) = [ch] := by
  rw [challengesFor, pendingFor, List.filter_append]
  have h1 := challengesFor_deleteMany_self v l
  rw [challengesFor, pendingFor] at h1
  rw [h1]
  simp [contactMatches, hch]

/-- Sample verified user for the witnesses. -/
def annUser : UserRecord :=
  { name := "Ann", contact := "ann@x.com", method := "email",
    password := "HASH", verified := true, image := DEFAULT_PROFILE_PIC,
    created_at := 100, id := "u1" }

/-- A store holding the sample user and no pending challenges. -/
def st3 : AppState := { users := [annUser], pending_users := [] }

/-- C4 counterexample: when the email send fails, send-login-otp answers
NotificationError but does NOT delete the just-created challenge, so a
pending challenge for the contact remains after the failed begin
operation, contrary to the claim. -/
theorem login_otp_send_failure_leaves_challenge :
    (send_login_otp (some "ann@x.com") "111111" 1000 false st3).result
      = .notificationError
    ∧ (send_login_otp (some "ann@x.com") "111111" 1000 false st3).state.pending_users
      = [{ name := none, contact := "ann@x.com", method := none,
           password := none, otp := "111111", otp_expiry := 1300,
           login_otp := true }] := by decide

/-- C4 amended: both begin operations persist the challenge before the
send attempt and answer NotificationError when the send fails; signup then
rolls the challenge back (no pending challenge for the contact remains),
while send-login-otp does not roll back (the inserted challenge remains
the sole pending challenge for the contact). -/
theorem send_failure_rollback_amended :
    (∀ (name password : Option String) (v hashed otp : String) (now : Nat)
       (s : AppState),
       blank name = false → v.isEmpty = false → blank password = false →
       findUser (some v) s.users = none →
       (signup name (some v) password hashed otp now false s).result
           = .notificationError
       ∧ challengesFor v
           (signup name (some v) password hashed otp now false s).state.pending_users
           = []
       ∧ (signup name (some v) password hashed otp now false s).events
           = [.persistedChallenge
                { name := name, contact := v, method := some "email",
                  password := some hashed, otp := otp,
                  otp_expiry := now + 300, login_otp := false },
              .sendAttempted v otp, .rolledBack v])
    ∧ (∀ (v otp : String) (now : Nat) (s : AppState) (u : UserRecord),
       findUser (some v) s.users = some u →
       (send_login_otp (some v) otp now false s).result = .notificationError
       ∧ challengesFor v
           (send_login_otp (some v) otp now false s).state.pending_users
           = [{ name := none, contact := v, method := none, password := none,
                otp := otp, otp_expiry := now + 300, login_otp := true }]
       ∧ (send_login_otp (some v) otp now false s).events
           = [.persistedChallenge
                { name := none, contact := v, method := none, password := none,
                  otp := otp, otp_expiry := now + 300, login_otp := true },
              .sendAttempted v otp]) := by
  constructor
  · intro name password v hashed otp now s hname hv hpass hdup
    have hcond : (blank name || blank (some v) || blank password) = false := by
      rw [hname, hpass]
      simp [blank, hv]
    rw [signup]
    rw [if_neg (by simp [hcond])]
    rw [if_neg (by simp [hdup])]
    refine ⟨rfl, ?_, rfl⟩
    show challengesFor v
        (deleteOnePending (some v)
          (deleteManyPending (some v) s.pending_users ++
            [{ name := name, contact := v, method := some "email",
               password := some hashed, otp := otp, otp_expiry := now + 300,
               login_otp := false }])) = []
    rw [challengesFor, pendingFor_deleteOne]
    have h2 := challengesFor_replace v
      { name := name, contact := v, method := some "email",
        password := some hashed, otp := otp, otp_expiry := now + 300,
        login_otp := false } rfl s.pending_users
    rw [challengesFor] at h2
    rw [h2]
    rfl
  · intro v otp now s u hu
    simp only [send_login_otp, hu]
    refine ⟨rfl, ?_, rfl⟩
    exact challengesFor_replace v
      { name := none, contact := v, method := none, password := none,
        otp := otp, otp_expiry := now + 300, login_otp := true }
      rfl s.pending_users

theorem send_failure_rollback_amended_witness :
    ((signup (some "Bob") (some "bob@x.com") (some "pw") "H2" "222222" 50 false
        { users := [], pending_users := [] }).result = .notificationError
      ∧ challengesFor "bob@x.com"
          (signup (some "Bob") (some "bob@x.com") (some "pw") "H2" "222222" 50
            false { users := [], pending_users := [] }).state.pending_users
          = [])
    ∧ ((send_login_otp (some "ann@x.com") "111111" 1000 false st3).result
          = .notificationError
      ∧ challengesFor "ann@x.com"
          (send_login_otp (some "ann@x.com") "111111" 1000 false st3).state.pending_users
          = [{ name := none, contact := "ann@x.com", method := none,
               password := none, otp := "111111", otp_expiry := 1300,
               login_otp := true }]) := by
  have h1 := send_failure_rollback_amended.1 (some "Bob") (some "pw")
    "bob@x.com" "H2" "222222" 50 { users := [], pending_users := [] }
    rfl rfl rfl rfl
  have h2 := send_failure_rollback_amended.2 "ann@x.com" "111111" 1000 st3
    annUser (by decide)
  exact ⟨⟨h1.1, h1.2.1⟩, ⟨h2.1, h2.2.1⟩⟩

/-- C10: with a missing or empty contact field, verify-otp,
verify-login-otp, login and send-login-otp all answer NotFoundError and
leave both stores unchanged, provided no stored record carries an empty
contact (no validation error is even possible: these handlers have no
validation branch). -/
theorem blank_contact_not_found (q reqOtp password : Option String)
    (otp newId : String) (now : Nat) (sendOk : Bool)
    (check : String → Option String → Bool) (s : AppState)
    (hq : q = none ∨ q = some "")
    (husers : ∀ u ∈ s.users, u.contact ≠ "")
    (hpend : ∀ c ∈ s.pending_users, c.contact ≠ "") :
    verify_otp q reqOtp now newId s = (.notFound, s)
    ∧ verify_login_otp q reqOtp now s = (.notFound, s)
    ∧ login check q password s = (.notFound, s)
    ∧ send_login_otp q otp now sendOk s = ⟨.notFound, s, []⟩ := by
  have hfu : findUser q s.users = none := by
    rw [findUser]
    apply List.find?_eq_none.mpr
    intro u hu
    rcases hq with rfl | rfl
    · simp [contactMatches]
    · simp only [contactMatches, Bool.not_eq_true, beq_eq_false_iff_ne, Ne,
        Option.some.injEq]
      exact husers u hu
  have hfc : ∀ b, findChallenge q b s.pending_users = none := by
    intro b
    rw [findChallenge]
    apply List.find?_eq_none.mpr
    intro c hc
    rcases hq with rfl | rfl
    · simp [contactMatches]
    · simp only [contactMatches, Bool.and_eq_true, not_and, Bool.not_eq_true]
      intro hcontra
      exfalso
      simp only [beq_iff_eq, Option.some.injEq] at hcontra
      exact hpend c hc hcontra
  refine ⟨?_, ?_, ?_, ?_⟩
  · simp [verify_otp, hfc false]
  · simp [verify_login_otp, hfc true]
  · simp [login, hfu]
  · simp [send_login_otp, hfu]

theorem blank_contact_not_found_witness :
    verify_otp (some "") (some "123456") 5 "idZ" st1 = (.notFound, st1)
    ∧ verify_login_otp (some "") (some "123456") 5 st1 = (.notFound, st1)
    ∧ login (fun _ _ => true) (some "") (some "pw") st1 = (.notFound, st1)
    ∧ send_login_otp (some "") "123456" 5 true st1 = ⟨.notFound, st1, []⟩ :=
  blank_contact_not_found (some "") (some "123456") (some "pw") "123456" "idZ"
    5 true (fun _ _ => true) st1 (Or.inr rfl) (by decide) (by decide)

/-- Sample worksheet: a header row and one valid data row carrying a
primary image in column 4. -/
def booksSheet : Sheet :=
  { name := "Books",
    rows := [[some "id", some "title", some "author", some "price", some "image"],
             [some "1", some "B1", some "A", some "9.99", some "img1.jpg"]] }

/-- Sample worksheet with a header row and no data rows. -/
def toysSheet : Sheet := { name := "Toys", rows := [[some "id", some "title"]] }

/-- A cache whose prior materialization is the empty mapping. -/
def emptyCache : CacheState := { data := some [], timestamp := 5 }

/-- A cache whose prior materialization is nonempty. -/
def filledCache : CacheState :=
  { data := some [("Books", [])], timestamp := 5 }

/-- C6 counterexample: a prior materialization that is the empty mapping,
one second old (well under the 10-second TTL), is not returned unchanged:
Load re-reads the dataset and returns a different mapping, because the
empty dict is falsy in the cache-freshness test. -/
theorem empty_cache_rereads_within_ttl :
    (6 : Nat) - emptyCache.timestamp < CACHE_TTL
    ∧ (load_items_by_category (some [booksSheet]) 6 emptyCache).didRead = true
    ∧ (load_items_by_category (some [booksSheet]) 6 emptyCache).result
        ≠ emptyCache.data.getD [] := by decide

/-- C6 amended: a NONEMPTY prior materialization younger than the TTL is
returned unchanged with no dataset read, and a dataset read can only
happen when the cached mapping is absent or empty or the TTL has elapsed;
an empty prior materialization is treated as absent. -/
theorem fresh_nonempty_cache_served (dataset : Option (List Sheet))
    (now : Nat) (c : CacheState) (d : List (String × List Item))
    (hd : c.data = some d) (hne : d ≠ [])
    (hfresh : now - c.timestamp < CACHE_TTL) :
    load_items_by_category dataset now c
      = { result := d, cache := c, didRead := false }
    ∧ ∀ (ds2 : Option (List Sheet)) (n2 : Nat) (c2 : CacheState),
        (load_items_by_category ds2 n2 c2).didRead = true →
        ¬(cacheTruthy c2 = true ∧ n2 - c2.timestamp < CACHE_TTL) := by
  constructor
  · have ht : (cacheTruthy c && decide (now - c.timestamp < CACHE_TTL)) = true := by
      simp [cacheTruthy, hd, hfresh, List.isEmpty_iff, hne]
    rw [load_items_by_category.eq_def, if_pos ht]
    simp [hd]
  · intro ds2 n2 c2 hread hcond
    rw [load_items_by_category.eq_def,
      if_pos (by simp [hcond.1, hcond.2] :
        (cacheTruthy c2 && decide (n2 - c2.timestamp < CACHE_TTL)) = true)] at hread
    simp at hread

theorem fresh_nonempty_cache_served_witness :
    load_items_by_category (some [booksSheet]) 6 filledCache
      = { result := [("Books", [])], cache := filledCache, didRead := false }
    ∧ ¬(cacheTruthy emptyCache = true
        ∧ (20 : Nat) - emptyCache.timestamp < CACHE_TTL) := by
  have h := fresh_nonempty_cache_served (some [booksSheet]) 6 filledCache
    [("Books", [])] rfl (by decide) (by decide)
  exact ⟨h.1, h.2 (some [booksSheet]) 20 emptyCache (by decide)⟩

/-- C7: the reclaimer loop body has no exception handler, so a store error
in delete_many propagates: the loop returns the error and the later tick
never runs, even though that second tick would have reclaimed the expired
challenge (the claim says the error is logged and swallowed and the loop
never terminates; the code disagrees). -/
theorem reclaimer_error_kills_loop :
    clean_expired_otps [(true, 1400), (false, 1400)] st1 = .error ()
    ∧ cleanTick false 1400 st1 = .ok { users := [], pending_users := [] } :=
  ⟨rfl, rfl⟩

lemma isEmpty_nil_string : ("" : String).isEmpty = true := rfl

lemma firstImage_all_empty :
    ∀ {its : List Item}, (∀ it ∈ its, it.image = "") → firstImage its = "" := by
  intro its
  induction its with
  | nil => intro _; rfl
  | cons it rest ih =>
    intro h
    rw [firstImage]
    have h1 : it.image = "" := h it (List.mem_cons_self it rest)
    rw [if_neg (by simp [h1, isEmpty_nil_string])]
    exact ih (fun x hx => h x (List.mem_cons_of_mem it hx))

/-- C8: category-list on the materialized catalog has one element per
sheet, carrying the sheet name, the count of valid data rows (header
dropped, empty and short rows skipped), and as thumbnail the primary image
of the first entry carrying one, the fixed placeholder when no entry has
an image; in particular a sheet with zero valid rows yields count 0 and
the placeholder. -/
theorem category_list_shape (sheets : List Sheet) :
    get_category_list (buildCategories sheets)
      = sheets.map (fun sh =>
          { name := sh.name,
            count := ((sh.rows.drop 1).filter rowValid).length,
            thumbnail :=
              if (firstImage (sheetItems sh)).isEmpty then PLACEHOLDER
              else firstImage (sheetItems sh) })
    ∧ (∀ sh : Sheet, (∀ it ∈ sheetItems sh, it.image = "") →
        (if (firstImage (sheetItems sh)).isEmpty then PLACEHOLDER
         else firstImage (sheetItems sh)) = PLACEHOLDER)
    ∧ (∀ (sh : Sheet) (it : Item) (its : List Item),
        sheetItems sh = it :: its → it.image ≠ "" →
        (if (firstImage (sheetItems sh)).isEmpty then PLACEHOLDER
         else firstImage (sheetItems sh)) = it.image)
    ∧ (∀ sh : Sheet, (sh.rows.drop 1).filter rowValid = [] →
        get_category_list (buildCategories [sh])
          = [{ name := sh.name, count := 0, thumbnail := PLACEHOLDER }]) := by
  refine ⟨?_, ?_, ?_, ?_⟩
  · simp [get_category_list, buildCategories, sheetItems, List.map_map,
      Function.comp]
  · intro sh h
    rw [firstImage_all_empty h]
    rfl
  · intro sh it its hsh hne
    have himg : it.image.isEmpty = false := by
      rw [Bool.eq_false_iff]
      intro hc
      exact hne ((String.isEmpty_iff it.image).mp hc)
    have h1 : firstImage (sheetItems sh) = it.image := by
      rw [hsh, firstImage, if_pos (by simp [himg])]
    rw [h1, if_neg (by simp [himg])]
  · intro sh h
    have hside : sheetItems sh = [] := by
      rw [sheetItems, h]
      rfl
    simp [get_category_list, buildCategories, hside, firstImage,
      isEmpty_nil_string]

theorem category_list_shape_witness :
    get_category_list (buildCategories [booksSheet, toysSheet])
      = [{ name := "Books", count := 1, thumbnail := "img1.jpg" },
         { name := "Toys", count := 0, thumbnail := PLACEHOLDER }]
    ∧ get_category_list (buildCategories [toysSheet])
      = [{ name := "Toys", count := 0, thumbnail := PLACEHOLDER }]
    ∧ (if (firstImage (sheetItems toysSheet)).isEmpty then PLACEHOLDER
       else firstImage (sheetItems toysSheet)) = PLACEHOLDER
    ∧ (if (firstImage (sheetItems booksSheet)).isEmpty then PLACEHOLDER
       else firstImage (sheetItems booksSheet))
      = (mkItem "Books"
          [some "1", some "B1", some "A", some "9.99", some "img1.jpg"]).image := by
  have h := category_list_shape [booksSheet, toysSheet]
  refine ⟨?_, ?_, ?_, ?_⟩
  · rw [h.1]
    decide
  · exact h.2.2.2 toysSheet (by decide)
  · exact h.2.1 toysSheet (by decide)
  · exact h.2.2.1 booksSheet
      (mkItem "Books" [some "1", some "B1", some "A", some "9.99", some "img1.jpg"])
      [] (by decide) (by decide)

end Coinsora
